import Mathlib

/-!
# Verification of the book-API route handlers

Shallow embedding of the route handlers of the `books` CRUD HTTP API
(`src/routes/open/book.ts` and the `adminBook.ts` admin router).  Every
endpoint is a chain of guard middlewares ending in one SQL statement against
the `books` table; we model the table as a `List Book`, the SQL statements by
explicit list transformations, SQL `LIKE` matching by a recursive pattern
matcher, and each handler as a pure function from the request inputs and the
table to an HTTP response (and the new table, for mutating endpoints).
-/

set_option maxHeartbeats 1000000

namespace BooksApi

/-- A row of the `books` table (columns per the `INSERT INTO books(...)`
statement plus the generated primary key `id` used only for pagination).
Numeric columns are integers except `rating_avg`, which is a decimal. -/
structure Book where
  id : Nat
  isbn13 : Int
  authors : String
  publication_year : Int
  original_title : String
  title : String
  rating_avg : Rat
  rating_count : Int
  rating_1_star : Int
  rating_2_star : Int
  rating_3_star : Int
  rating_4_star : Int
  rating_5_star : Int
  image_url : String
  image_small_url : String
deriving DecidableEq

/-- The nested ratings object of the response DTO (`IRatings`). -/
structure IRatings where
  average : Rat
  count : Int
  rating_1 : Int
  rating_2 : Int
  rating_3 : Int
  rating_4 : Int
  rating_5 : Int
deriving DecidableEq

/-- The cover-image URLs object of the response DTO (`IUrlIcon`). -/
structure IUrlIcon where
  large : String
  small : String
deriving DecidableEq

/-- The response DTO (`IBook`): the flat row reshaped into nested JSON. -/
structure IBook where
  isbn13 : Int
  authors : String
  publication : Int
  original_title : String
  title : String
  ratings : IRatings
  icons : IUrlIcon
deriving DecidableEq

/-- The row→DTO formatter `format` (core/utilities/bookInterfaces.ts): a pure
transform selecting fixed column names into the nested DTO shape. -/
def format (resultRow : Book) : IBook :=
  { isbn13 := resultRow.isbn13
    authors := resultRow.authors
    publication := resultRow.publication_year
    original_title := resultRow.original_title
    title := resultRow.title
    ratings :=
      { average := resultRow.rating_avg
        count := resultRow.rating_count
        rating_1 := resultRow.rating_1_star
        rating_2 := resultRow.rating_2_star
        rating_3 := resultRow.rating_3_star
        rating_4 := resultRow.rating_4_star
        rating_5 := resultRow.rating_5_star }
    icons :=
      { large := resultRow.image_url
        small := resultRow.image_small_url } }

/-- An HTTP response as the handlers produce it: either an error object
carrying the `response.statusMessage` (empty when the handler does not set
one) and the body's `message` field, or a 200/201 payload carrying formatted
rows (`entries`) or a single row (`entry`). -/
inductive Resp where
  | msg (status : Nat) (statusMessage : String) (message : String)
  | entries (status : Nat) (rows : List IBook)
  | entry (status : Nat) (row : IBook)
deriving DecidableEq

/-- The HTTP status code of a response. -/
def Resp.status : Resp → Nat
  | .msg s _ _ => s
  | .entries s _ => s
  | .entry s _ => s

/-- The generic failure body sent by every `.catch(...)` branch. -/
def serverErrorMsg : String := "Server error - contact support"

/-! ## SQL LIKE pattern matching

The handlers build `LIKE` patterns by string interpolation
(`` `%${value}%` `` in most routes, the bare `value` in `changeValues`) and
hand them to Postgres.  `likeMatch` embeds the SQL `LIKE` semantics: `%`
matches any (possibly empty) character sequence, `_` matches exactly one
character, every other pattern character matches itself.  (Escape-character
processing is not modelled; none of the verified inputs contain `\`.) -/

/-- SQL `LIKE` matching of a pattern against a string, both as char lists. -/
def likeMatch : List Char → List Char → Bool
  | [], s => s.isEmpty
  | p :: ps, s =>
    if p = '%' then s.tails.any (fun t => likeMatch ps t)
    else
      match s with
      | [] => false
      | c :: s' => (if p = '_' then true else p == c) && likeMatch ps s'

/-- The `LIKE '%value%'` test the routes use for substring-style matching:
pattern `'%' ++ value ++ '%'` against a row field. -/
def sqlLikeContains (value field : String) : Bool :=
  likeMatch ('%' :: (value.data ++ ['%'])) field.data

/-- The bare `LIKE value` test (no `%` wrapping), as built by the
`changeValues` handler's `WHERE authors LIKE $n AND title LIKE $m`. -/
def sqlLikeExact (value field : String) : Bool :=
  likeMatch value.data field.data

/-- A string free of the SQL `LIKE` wildcards `%` and `_`. -/
def wildcardFree (s : String) : Bool :=
  s.data.all (fun c => !(c == '%' || c == '_'))

/-! ## Validation helpers

The routers import `isStringProvided` and `isNumberProvided` from
`core/utilities` (file `validationUtils.ts`), which is not among the
provided source files; they are modelled from the spec. -/

/-- Modelled from the spec: `isStringProvided` (missing
`validationUtils.ts`); the spec (§4) describes the string-parameter checks
as "non-empty string".  An absent field is modelled as `""`. -/
def isStringProvided (s : String) : Bool := s != ""

/-- Modelled from the spec: `isNumberProvided` (missing
`validationUtils.ts`) applied to a query-string value; the spec (§4)
describes the `/book/isbn` check as "isbn (13 digits) / numeric length 13",
so on a query-string value it is modelled as "non-empty and every character
a decimal digit". -/
def isNumberProvidedStr (s : String) : Bool :=
  s != "" && s.data.all Char.isDigit

/-- Numeric value of a digit string, as Postgres reads the `$1` parameter
of `WHERE isbn13 = $1` (cast of the query-string value to a number). -/
def digitsToInt (s : String) : Int :=
  s.data.foldl (fun acc c => 10 * acc + ((c.toNat - 48 : Nat) : Int)) 0

/-! ## GET /book/getAll (pagination) -/

/-- `SELECT MAX(id) FROM books`: `none` models the SQL `NULL` returned on
an empty table. -/
def maxId (db : List Book) : Option Nat := (db.map Book.id).max?

/-- `Math.floor` on a rational. -/
def ratFloor (q : Rat) : Int := q.num.fdiv (q.den : Int)

/-- `Math.ceil` on a rational (the handler computes
`Math.ceil(maxBook / intPerPage)`). -/
def ratCeil (q : Rat) : Int := -(ratFloor (-q))

/-- The `/getAll` final handler (`bookRouter.get('/getAll')`, after the
`isNumberProvided` guard on both query values): `pageNum`/`perPage` are the
`parseFloat` results; a `null` `MAX(id)` coerces to `0` in the JS division. -/
def getAll (pageNum perPage : Rat) (db : List Book) : Resp :=
  let maxBook : Rat := match maxId db with | none => 0 | some n => (n : Rat)
  let maxPages : Int := ratCeil (maxBook / perPage)
  if pageNum < 1 ∨ perPage < 1 then
    Resp.msg 400 "Input outside of range"
      "Both values per page and page number must be greater than 0."
  else if (maxPages : Rat) < pageNum ∨ maxPages < 1 then
    Resp.msg 400 "Page outside of range"
      ("Page must be greater than 0 and less than " ++ toString maxPages ++ ".")
  else
    let maxInPage := perPage * pageNum
    let maxIndex := if maxInPage > maxBook then maxBook else maxInPage
    let minIndex := perPage * (pageNum - 1) + 1
    Resp.entries 200
      ((db.filter (fun b =>
        decide (minIndex ≤ (b.id : Rat) ∧ (b.id : Rat) ≤ maxIndex))).map format)

/-! ## The Postgres store

The handlers issue single parameterized statements against the `books`
table.  The table is a `List Book`; the `isbn13` column carries a unique
constraint (spec §3: "intended unique (enforced by underlying storage
constraint)"), whose violation surfaces as a driver error whose `detail`
string ends in `already exists.` (the Postgres `Key (...)=(...) already
exists.` detail, which the catch branches test with `endsWith`). -/

/-- A store/driver error as the `.catch((error) => ...)` branches see it:
only the optional `detail` string is inspected. -/
structure PgError where
  detail : Option String
deriving DecidableEq

/-- The detail string of a Postgres duplicate-key violation on `isbn13`. -/
def dupKeyDetail (i : Int) : String :=
  "Key (isbn13)=(" ++ toString i ++ ") already exists."

/-- The JS `String.prototype.endsWith` test used on `error.detail`. -/
def jsEndsWith (s suffixStr : String) : Bool :=
  decide (suffixStr.data <:+ s.data)

/-- Whether an error's `detail` is defined and ends with `already exists.`
(the test of every duplicate-detecting catch branch:
`error.detail != undefined && (error.detail as string).endsWith('already exists.')`). -/
def isDupError (e : PgError) : Bool :=
  match e.detail with
  | some d => jsEndsWith d "already exists."
  | none => false

/-- `INSERT INTO books(...) VALUES (...) RETURNING *`: fails with a
duplicate-key error when some row already carries the new `isbn13`,
otherwise appends the row (with the next generated `id`). -/
def pgInsertBook (db : List Book) (b : Book) :
    Except PgError (List Book) :=
  if db.any (fun x => x.isbn13 == b.isbn13) then
    .error ⟨some (dupKeyDetail b.isbn13)⟩
  else
    .ok (db ++ [b])

/-- `UPDATE books SET ... WHERE <matched> RETURNING *`: applies `f` to every
matched row; fails with a duplicate-key error when the updated table would
violate the `isbn13` uniqueness constraint, otherwise returns the new table
and the updated rows. -/
def pgUpdateBooks (matched : Book → Bool) (f : Book → Book)
    (db : List Book) : Except PgError (List Book × List Book) :=
  let db' := db.map (fun b => if matched b then f b else b)
  if (db'.map Book.isbn13).Nodup then
    .ok (db', (db.filter matched).map f)
  else
    .error ⟨some (dupKeyDetail 0)⟩

/-! ## GET /book/isbn -/

/-- The `/isbn` route (`bookRouter.get('/isbn')`): guard
`isNumberProvided(isbn) && isbn.length == 13`, then
`SELECT ... WHERE isbn13 = $1`. -/
def getByIsbn (isbn : String) (db : List Book) : Resp :=
  if !(isNumberProvidedStr isbn && isbn.length == 13) then
    Resp.msg 400 "Missing/Bad information"
      "Missing or bad information, see documentation."
  else
    let rows := db.filter (fun b => b.isbn13 == digitsToInt isbn)
    if rows.length > 0 then Resp.entries 200 (rows.map format)
    else Resp.msg 404 "No books with this ISBN" "No books found with this ISBN."

/-! ## POST /book/addBook (same final handler as /adminBook/addBook) -/

/-- The request body of `addBook`: `isbn13`, `authors`, `publication` and
`title` are required (and numeric fields already parsed); the remaining
fields are optional (`none` models an absent field). -/
structure AddBookBody where
  isbn13 : Int
  authors : String
  publication : Int
  title : String
  original_title : Option String
  average : Option Rat
  count : Option Int
  rating_1 : Option Int
  rating_2 : Option Int
  rating_3 : Option Int
  rating_4 : Option Int
  rating_5 : Option Int
  large : Option String
  small : Option String
deriving DecidableEq

/-- The row the `addBook` final handler inserts: each optional field is
defaulted through the JS falsy test (`!request.body.x ? default : x`, which
on an absent field, `''`, or `0` yields the default — the same value
`Option.getD` produces on the parsed model). -/
def addBookRow (body : AddBookBody) (db : List Book) : Book :=
  { id := (maxId db).getD 0 + 1
    isbn13 := body.isbn13
    authors := body.authors
    publication_year := body.publication
    original_title := body.original_title.getD ""
    title := body.title
    rating_avg := body.average.getD 0
    rating_count := body.count.getD 0
    rating_1_star := body.rating_1.getD 0
    rating_2_star := body.rating_2.getD 0
    rating_3_star := body.rating_3.getD 0
    rating_4_star := body.rating_4.getD 0
    rating_5_star := body.rating_5.getD 0
    image_url := body.large.getD ""
    image_small_url := body.small.getD "" }

/-- The `.then`/`.catch` continuation of the `addBook` insert: on success a
201 with the formatted inserted row, on failure the catch branch — 400
"Book already exists in database." for a duplicate-detail error, else the
generic 500 — with the table unchanged. -/
def addBookRespond (db : List Book) (row : Book)
    (qr : Except PgError (List Book)) : Resp × List Book :=
  match qr with
  | .ok db' => (Resp.entry 201 (format row), db')
  | .error e =>
    if isDupError e then
      (Resp.msg 400 "Book already exists" "Book already exists in database.", db)
    else
      (Resp.msg 500 "" serverErrorMsg, db)

/-- The `addBook` final handler (`bookRouter.post('/addBook')`, after the
missing-information and per-field validation guards): one `INSERT ...
RETURNING *` and the response continuation. -/
def addBook (body : AddBookBody) (db : List Book) : Resp × List Book :=
  let row := addBookRow body db
  addBookRespond db row (pgInsertBook db row)

/-! ## DELETE /adminBook/author -/

/-- The `/author` delete route (`adminBookRouter.delete('/author')`):
guard `isStringProvided(author)`, then
`DELETE FROM books WHERE authors LIKE $1 RETURNING *` with pattern
`` `%${author}%` ``; 200 with the removed rows when any matched, else 404
and the table unchanged. -/
def deleteByAuthor (author : String) (db : List Book) : Resp × List Book :=
  if !(isStringProvided author) then
    (Resp.msg 400 "Missing information" "Missing data, refer to documentation.", db)
  else
    let deleted := db.filter (fun b => sqlLikeContains author b.authors)
    if deleted.length > 0 then
      (Resp.entries 200 (deleted.map format),
       db.filter (fun b => !(sqlLikeContains author b.authors)))
    else
      (Resp.msg 404 "No books found"
        "No books with this author were found to delete.", db)

/-! ## PUT /adminBook/changeValues -/

/-- The request body of `changeValues`: `author` and `title` are required;
each `new_*` field is optional (`none` models `null`/absent). -/
structure ChangeValuesBody where
  author : String
  title : String
  new_title : Option String
  new_author : Option String
  new_isbn : Option Int
  new_year : Option Int
deriving DecidableEq

/-- The `changeValues` request-body validation guard: `author` and `title`
provided, and each optional field either `null` or itself valid
(`isStringProvided` for the string fields; the numeric fields are already
parsed in the model, so `isNumberProvided` holds whenever they are
present). -/
def changeValuesGuard (body : ChangeValuesBody) : Bool :=
  isStringProvided body.author && isStringProvided body.title &&
  (match body.new_title with | none => true | some s => isStringProvided s) &&
  (match body.new_author with | none => true | some s => isStringProvided s)

/-- The `counter` of provided `new_*` fields the handler accumulates while
building the `SET` clause. -/
def providedCount (body : ChangeValuesBody) : Nat :=
  (if body.new_title.isSome then 1 else 0) +
  (if body.new_author.isSome then 1 else 0) +
  (if body.new_isbn.isSome then 1 else 0) +
  (if body.new_year.isSome then 1 else 0)

/-- The `SET` clause of the update: each provided `new_*` value overwrites
the corresponding column of a matched row. -/
def applyChanges (body : ChangeValuesBody) (b : Book) : Book :=
  { b with
    title := body.new_title.getD b.title
    authors := body.new_author.getD b.authors
    isbn13 := body.new_isbn.getD b.isbn13
    publication_year := body.new_year.getD b.publication_year }

/-- The `WHERE` clause of the update: `authors LIKE $n AND title LIKE $m`
with the *bare* body values as patterns (the handler pushes
`request.body.author` / `request.body.title` without `%` wrapping). -/
def changeValuesMatched (body : ChangeValuesBody) (b : Book) : Bool :=
  sqlLikeExact body.author b.authors && sqlLikeExact body.title b.title

/-- The `changeValues` route (`adminBookRouter.put('/changeValues')`):
body-validation guard, then the counter check (400 when no `new_*` value
was passed), then one `UPDATE ... RETURNING *` — 201 with the updated rows
when any matched, 404 when none, 400/500 from the catch branch on a store
error. -/
def changeValues (body : ChangeValuesBody) (db : List Book) :
    Resp × List Book :=
  if !(changeValuesGuard body) then
    (Resp.msg 400 "Missing/Bad information"
      "Missing or bad information, see documentation.", db)
  else if providedCount body == 0 then
    (Resp.msg 400 "No valid update values provided"
      "No valid update values were passed.", db)
  else
    match pgUpdateBooks (changeValuesMatched body) (applyChanges body) db with
    | .ok (db', rows) =>
      if rows.length > 0 then
        (Resp.entries 201 (rows.map format), db')
      else
        (Resp.msg 404 "No book found with that combination of author and title"
          "No book found with given author and title.", db)
    | .error e =>
      if isDupError e then
        (Resp.msg 400 "Book already exists" "Book already exists in database.", db)
      else
        (Resp.msg 500 "" serverErrorMsg, db)

/-! ## PUT /adminBook/addRating -/

/-- Decimal digits of a rational in `[0,1)`, most significant first, with
recursion fuel (the reachable values here have at most one digit). -/
def fracDigits : Nat → Rat → String
  | 0, _ => ""
  | fuel + 1, q =>
    if q == 0 then ""
    else
      let d : Int := ratFloor (q * 10)
      toString d ++ fracDigits fuel (q * 10 - (d : Rat))

/-- The JS number→string coercion performed by
`'rating_' + request.body.rating + '_star'`, modelled for the nonnegative
terminating decimals reachable past the rating guard: an integer prints its
digits, a non-integer prints integer part, `.`, and the fractional
digits. -/
def jsNumToString (q : Rat) : String :=
  if q.den == 1 then toString q.num
  else toString (ratFloor q) ++ "." ++ fracDigits 20 (q - (ratFloor q : Rat))

/-- The column name `'rating_' + rating + '_star'` the final `addRating`
handler concatenates into its `UPDATE`. -/
def ratingColumnName (rating : Rat) : String :=
  "rating_" ++ jsNumToString rating ++ "_star"

/-- Resolution of a column name against the five star-bucket columns of the
`books` table: the built name exists exactly when it is one of
`rating_1_star` … `rating_5_star`; the `UPDATE` errors otherwise. -/
def starIndex (col : String) : Option Nat :=
  if col == "rating_1_star" then some 1
  else if col == "rating_2_star" then some 2
  else if col == "rating_3_star" then some 3
  else if col == "rating_4_star" then some 4
  else if col == "rating_5_star" then some 5
  else none

/-- `SET rating_k_star = rating_k_star + 1, rating_count = rating_count + 1`
applied to one row. -/
def incStar (k : Nat) (b : Book) : Book :=
  if k == 1 then
    { b with rating_1_star := b.rating_1_star + 1,
             rating_count := b.rating_count + 1 }
  else if k == 2 then
    { b with rating_2_star := b.rating_2_star + 1,
             rating_count := b.rating_count + 1 }
  else if k == 3 then
    { b with rating_3_star := b.rating_3_star + 1,
             rating_count := b.rating_count + 1 }
  else if k == 4 then
    { b with rating_4_star := b.rating_4_star + 1,
             rating_count := b.rating_count + 1 }
  else if k == 5 then
    { b with rating_5_star := b.rating_5_star + 1,
             rating_count := b.rating_count + 1 }
  else b

/-- The star-bucket column `rating_k_star` of a row. -/
def getStar (k : Nat) (b : Book) : Int :=
  if k == 1 then b.rating_1_star
  else if k == 2 then b.rating_2_star
  else if k == 3 then b.rating_3_star
  else if k == 4 then b.rating_4_star
  else if k == 5 then b.rating_5_star
  else 0

/-- The `WHERE authors LIKE $1 AND title LIKE $2` match of the final
`addRating` update, with `%`-wrapped patterns. -/
def addRatingMatched (author title : String) (b : Book) : Bool :=
  sqlLikeContains author b.authors && sqlLikeContains title b.title

/-- The `addRating` route (`adminBookRouter.put('/addRating')`): the
body-validation guard, the rating-range guard (`rating >= 1 && rating <= 5`
on the JS number), the three staged existence checks (title, author,
author+title), then the final `UPDATE` on the concatenated column name —
201 with the updated rows when the column resolves, the catch branch's 500
when it does not. -/
def addRating (author title : String) (rating : Rat) (db : List Book) :
    Resp × List Book :=
  if !(isStringProvided author && isStringProvided title) then
    (Resp.msg 400 "Missing/Bad information"
      "Missing or bad information, see documentation.", db)
  else if !(decide (1 ≤ rating) && decide (rating ≤ 5)) then
    (Resp.msg 400 "Invalid rating" "Invalid rating, use a number 0-5.", db)
  else if !(db.any (fun b => sqlLikeContains title b.title)) then
    (Resp.msg 404 "Title not found in database" "Title not found in database.", db)
  else if !(db.any (fun b => sqlLikeContains author b.authors)) then
    (Resp.msg 404 "Author not found in database" "Author not found in database.", db)
  else if !(db.any (addRatingMatched author title)) then
    (Resp.msg 404 "Book and Author do not match"
      "Book not written by specified author.", db)
  else
    match starIndex (ratingColumnName rating) with
    | none => (Resp.msg 500 "" serverErrorMsg, db)
    | some k =>
      (Resp.entries 201
        ((db.filter (addRatingMatched author title)).map
          (fun b => format (incStar k b))),
       db.map (fun b => if addRatingMatched author title b then incStar k b else b))

/-! ## Sample data used by the concrete instances below -/

/-- A sample row. -/
def bookAlice : Book :=
  { id := 1, isbn13 := 9780000000001, authors := "Alice Smith",
    publication_year := 2000, original_title := "", title := "Foo Bar",
    rating_avg := 3, rating_count := 10, rating_1_star := 1,
    rating_2_star := 2, rating_3_star := 3, rating_4_star := 2,
    rating_5_star := 2, image_url := "", image_small_url := "" }

/-- A sample row whose `authors` value contains no `%` character. -/
def bookBob : Book :=
  { id := 2, isbn13 := 9780000000002, authors := "Bob Jones",
    publication_year := 2001, original_title := "", title := "Gamma",
    rating_avg := 4, rating_count := 5, rating_1_star := 0,
    rating_2_star := 1, rating_3_star := 1, rating_4_star := 1,
    rating_5_star := 2, image_url := "", image_small_url := "" }

/-- A sample row whose `authors` value is the single character `X` (in
particular it does not contain `_`). -/
def bookX : Book :=
  { id := 3, isbn13 := 9780000000003, authors := "X",
    publication_year := 2002, original_title := "", title := "Delta",
    rating_avg := 2, rating_count := 3, rating_1_star := 1,
    rating_2_star := 1, rating_3_star := 1, rating_4_star := 0,
    rating_5_star := 0, image_url := "", image_small_url := "" }

/-- A sample row. -/
def bookCarol : Book :=
  { id := 4, isbn13 := 9780000000004, authors := "Carol King",
    publication_year := 1995, original_title := "E", title := "Epsilon",
    rating_avg := 5, rating_count := 1, rating_1_star := 0,
    rating_2_star := 0, rating_3_star := 0, rating_4_star := 0,
    rating_5_star := 1, image_url := "u", image_small_url := "v" }

/-- An `addBook` body with a fresh ISBN and every optional field absent. -/
def bodyDana : AddBookBody :=
  { isbn13 := 9781111111111, authors := "Dana", publication := 1999,
    title := "Zeta", original_title := none, average := none, count := none,
    rating_1 := none, rating_2 := none, rating_3 := none, rating_4 := none,
    rating_5 := none, large := none, small := none }

/-- An `addBook` body reusing `bookCarol`'s ISBN. -/
def bodyDup : AddBookBody :=
  { isbn13 := 9780000000004, authors := "Carol King", publication := 2001,
    title := "Eta", original_title := none, average := none, count := none,
    rating_1 := none, rating_2 := none, rating_3 := none, rating_4 := none,
    rating_5 := none, large := none, small := none }

/-- A `changeValues` body that exactly matches `bookCarol` and provides one
`new_*` value. -/
def bodyCV : ChangeValuesBody :=
  { author := "Carol King", title := "Epsilon", new_title := none,
    new_author := none, new_isbn := none, new_year := some 2021 }

/-- A `changeValues` body whose `author`/`title` values are proper
substrings of `bookAlice`'s fields. -/
def bodyCVSub : ChangeValuesBody :=
  { author := "Alice", title := "Foo", new_title := some "X",
    new_author := none, new_isbn := none, new_year := none }

/-! ## Lemmas about the LIKE matcher and the store -/

theorem wildcardFree_spec (s : String) (hw : wildcardFree s = true) :
    ∀ c ∈ s.data, c ≠ '%' ∧ c ≠ '_' := by
  intro c hc
  have h := List.all_eq_true.mp hw c hc
  simpa using h

theorem likeMatch_percent (ps s : List Char) :
    likeMatch ('%' :: ps) s = s.tails.any (fun t => likeMatch ps t) := by
  simp [likeMatch]

theorem likeMatch_percent_iff (ps s : List Char) :
    likeMatch ('%' :: ps) s = true ↔ ∃ t, t <:+ s ∧ likeMatch ps t = true := by
  rw [likeMatch_percent]
  simp [List.any_eq_true, List.mem_tails]

theorem likeMatch_one_percent (s : List Char) : likeMatch ['%'] s = true :=
  (likeMatch_percent_iff [] s).mpr ⟨[], List.nil_suffix, rfl⟩

theorem likeMatch_lit (n : List Char) (hw : ∀ c ∈ n, c ≠ '%' ∧ c ≠ '_')
    (ps s : List Char) :
    likeMatch (n ++ ps) s = true ↔ ∃ t, s = n ++ t ∧ likeMatch ps t = true := by
  induction n generalizing s with
  | nil => simp
  | cons c n ih =>
    obtain ⟨hc1, hc2⟩ := hw c (List.mem_cons_self c n)
    cases s with
    | nil =>
      simp only [List.cons_append, likeMatch, if_neg hc1]
      simp
    | cons d s' =>
      simp only [List.cons_append, likeMatch, if_neg hc1, if_neg hc2,
        List.append_eq]
      rw [Bool.and_eq_true, beq_iff_eq,
        ih (fun x hx => hw x (List.mem_cons_of_mem c hx)) s']
      constructor
      · rintro ⟨rfl, t, rfl, h⟩
        exact ⟨t, rfl, h⟩
      · rintro ⟨t, h, hm⟩
        injection h with h1 h2
        exact ⟨h1.symm, t, h2, hm⟩

theorem sqlLikeContains_iff (value field : String)
    (hw : wildcardFree value = true) :
    sqlLikeContains value field = true ↔ value.data <:+: field.data := by
  unfold sqlLikeContains
  rw [likeMatch_percent_iff]
  constructor
  · rintro ⟨t, ⟨u, hu⟩, hm⟩
    rw [likeMatch_lit value.data (wildcardFree_spec value hw)] at hm
    obtain ⟨t', rfl, -⟩ := hm
    exact ⟨u, t', by rw [← hu]; simp⟩
  · rintro ⟨u, v, huv⟩
    refine ⟨value.data ++ v, ⟨u, by rw [← huv]; simp⟩, ?_⟩
    rw [likeMatch_lit value.data (wildcardFree_spec value hw)]
    exact ⟨v, rfl, likeMatch_one_percent v⟩

theorem sqlLikeExact_iff (value field : String)
    (hw : wildcardFree value = true) :
    sqlLikeExact value field = true ↔ field = value := by
  unfold sqlLikeExact
  have h := likeMatch_lit value.data (wildcardFree_spec value hw) [] field.data
  rw [List.append_nil] at h
  rw [h]
  constructor
  · rintro ⟨t, ht, hm⟩
    have : t = [] := by simpa [likeMatch, List.isEmpty_iff] using hm
    subst this
    exact String.ext (by simpa using ht)
  · rintro rfl
    exact ⟨[], by simp, rfl⟩

theorem sqlLikeContains_percent_all (field : String) :
    sqlLikeContains "%" field = true := by
  unfold sqlLikeContains
  exact (likeMatch_percent_iff _ _).mpr ⟨[], List.nil_suffix, by decide⟩

theorem jsEndsWith_dupKeyDetail (i : Int) :
    jsEndsWith (dupKeyDetail i) "already exists." = true := by
  unfold jsEndsWith dupKeyDetail
  rw [decide_eq_true_eq, String.data_append, String.data_append]
  have h1 : "already exists.".data <:+ ") already exists.".data := by decide
  exact h1.trans (List.suffix_append _ _)

theorem ratCeil_zero : ratCeil 0 = 0 := by decide

theorem starIndex_int (k : Nat) (hk1 : 1 ≤ k) (hk5 : k ≤ 5) :
    starIndex (ratingColumnName (k : Rat)) = some k := by
  interval_cases k <;> with_unfolding_all decide

/-! ## Claim theorems -/

/-- C1: For every book row matched by an existing (author,title) pair, a
successful `PUT /adminBook/addRating` with an integer rating `k` (1-5)
returns 201, increments that row's `rating_k_star` bucket by exactly 1 and
`rating_count` by exactly 1, and leaves `rating_avg` and every other field
of the row (isbn13, authors, title, publication_year, original_title, the
four other star buckets, image URLs) unchanged; unmatched rows are not
modified. -/
theorem addRating_existing_pair_increments (db : List Book)
    (author title : String) (k : Nat)
    (hk1 : 1 ≤ k) (hk5 : k ≤ 5) (ha : author ≠ "") (ht : title ≠ "")
    (hex : ∃ b ∈ db, addRatingMatched author title b = true) :
    addRating author title (k : Rat) db =
      (Resp.entries 201
        ((db.filter (addRatingMatched author title)).map
          (fun b => format (incStar k b))),
       db.map (fun b =>
         if addRatingMatched author title b then incStar k b else b)) ∧
    ∀ b : Book,
      getStar k (incStar k b) = getStar k b + 1 ∧
      (incStar k b).rating_count = b.rating_count + 1 ∧
      (incStar k b).rating_avg = b.rating_avg ∧
      (incStar k b).isbn13 = b.isbn13 ∧
      (incStar k b).authors = b.authors ∧
      (incStar k b).title = b.title ∧
      (incStar k b).publication_year = b.publication_year ∧
      (incStar k b).original_title = b.original_title ∧
      (incStar k b).image_url = b.image_url ∧
      (incStar k b).image_small_url = b.image_small_url ∧
      ∀ j : Nat, 1 ≤ j → j ≤ 5 → j ≠ k →
        getStar j (incStar k b) = getStar j b := by
  obtain ⟨b0, hb0, hm0⟩ := hex
  have hmparts : sqlLikeContains author b0.authors = true ∧
      sqlLikeContains title b0.title = true := by
    simpa [addRatingMatched] using hm0
  constructor
  · have hga : (1 ≤ (k : Rat)) := by exact_mod_cast hk1
    have hgb : ((k : Rat) ≤ 5) := by exact_mod_cast hk5
    have hany1 : (db.any (fun b => sqlLikeContains title b.title)) = true :=
      List.any_eq_true.mpr ⟨b0, hb0, hmparts.2⟩
    have hany2 : (db.any (fun b => sqlLikeContains author b.authors)) = true :=
      List.any_eq_true.mpr ⟨b0, hb0, hmparts.1⟩
    have hany3 : (db.any (addRatingMatched author title)) = true :=
      List.any_eq_true.mpr ⟨b0, hb0, hm0⟩
    simp [addRating, isStringProvided, ha, ht, hga, hgb,
      hany1, hany2, hany3, starIndex_int k hk1 hk5]
  · intro b
    refine ⟨?_, ?_, ?_, ?_, ?_, ?_, ?_, ?_, ?_, ?_, ?_⟩
    all_goals first
      | (intro j hj1 hj5 hjk
         interval_cases k <;> interval_cases j <;> simp_all [incStar, getStar])
      | (interval_cases k <;> simp [incStar, getStar])

/-- C1 witness: the theorem applied to the one-row table `[bookAlice]`,
author substring `Alice`, title substring `Foo`, rating 3. -/
theorem addRating_existing_pair_increments_witness :
    addRating "Alice" "Foo" ((3 : Nat) : Rat) [bookAlice] =
      (Resp.entries 201
        (([bookAlice].filter (addRatingMatched "Alice" "Foo")).map
          (fun b => format (incStar 3 b))),
       [bookAlice].map (fun b =>
         if addRatingMatched "Alice" "Foo" b then incStar 3 b else b)) ∧
    ∀ b : Book,
      getStar 3 (incStar 3 b) = getStar 3 b + 1 ∧
      (incStar 3 b).rating_count = b.rating_count + 1 ∧
      (incStar 3 b).rating_avg = b.rating_avg ∧
      (incStar 3 b).isbn13 = b.isbn13 ∧
      (incStar 3 b).authors = b.authors ∧
      (incStar 3 b).title = b.title ∧
      (incStar 3 b).publication_year = b.publication_year ∧
      (incStar 3 b).original_title = b.original_title ∧
      (incStar 3 b).image_url = b.image_url ∧
      (incStar 3 b).image_small_url = b.image_small_url ∧
      ∀ j : Nat, 1 ≤ j → j ≤ 5 → j ≠ 3 →
        getStar j (incStar 3 b) = getStar j b :=
  addRating_existing_pair_increments [bookAlice] "Alice" "Foo" 3
    (by decide) (by decide) (by decide) (by decide)
    ⟨bookAlice, List.mem_singleton.mpr rfl, by decide⟩

/-- C2: For every `addBook` request whose `isbn13` already exists in the
table, the insert fails and the response is 400 with message "Book already
exists in database." with the table unchanged; any other store failure in
the same handler yields the generic 500 response, also with the table
unchanged. -/
theorem addBook_duplicate_isbn (db : List Book) (body : AddBookBody)
    (hdup : ∃ b ∈ db, b.isbn13 = body.isbn13) :
    addBook body db =
      (Resp.msg 400 "Book already exists" "Book already exists in database.",
       db) ∧
    ∀ e : PgError, isDupError e = false →
      addBookRespond db (addBookRow body db) (.error e) =
        (Resp.msg 500 "" serverErrorMsg, db) := by
  constructor
  · obtain ⟨b, hb, hEq⟩ := hdup
    have hany : (db.any (fun x => x.isbn13 == (addBookRow body db).isbn13)) = true := by
      rw [List.any_eq_true]
      exact ⟨b, hb, by simp [addBookRow, hEq]⟩
    simp [addBook, pgInsertBook, hany, addBookRespond, isDupError,
      jsEndsWith_dupKeyDetail]
  · intro e he
    simp [addBookRespond, he]

/-- C2 witness: the theorem applied to the table `[bookCarol]` and a body
reusing `bookCarol`'s ISBN. -/
theorem addBook_duplicate_isbn_witness :
    addBook bodyDup [bookCarol] =
      (Resp.msg 400 "Book already exists" "Book already exists in database.",
       [bookCarol]) ∧
    ∀ e : PgError, isDupError e = false →
      addBookRespond [bookCarol] (addBookRow bodyDup [bookCarol]) (.error e) =
        (Resp.msg 500 "" serverErrorMsg, [bookCarol]) :=
  addBook_duplicate_isbn [bookCarol] bodyDup
    ⟨bookCarol, List.mem_singleton.mpr rfl, rfl⟩

/-- C3: For every `GET /book/getAll` request with numeric `pagenum` and
`perpage` both at least 1: when `pagenum` exceeds
`ceil(max_id / perpage)` (with `max_id` the largest `id`, 0 on an empty
table) the response is the 400 "Page outside of range" error; otherwise it
is 200 with exactly the rows whose `id` lies in
`[perpage*(pagenum-1)+1, min(perpage*pagenum, max_id)]`. -/
theorem getAll_paging_contract (db : List Book) (pageNum perPage : Rat)
    (h1 : 1 ≤ pageNum) (h2 : 1 ≤ perPage) :
    ((((ratCeil ((((maxId db).getD 0 : Nat) : Rat) / perPage) : Int) : Rat) < pageNum →
        getAll pageNum perPage db =
          Resp.msg 400 "Page outside of range"
            ("Page must be greater than 0 and less than " ++
              toString (ratCeil ((((maxId db).getD 0 : Nat) : Rat) / perPage)) ++ ".")) ∧
     (pageNum ≤ ((ratCeil ((((maxId db).getD 0 : Nat) : Rat) / perPage) : Int) : Rat) →
        getAll pageNum perPage db =
          Resp.entries 200
            ((db.filter (fun b =>
              decide (perPage * (pageNum - 1) + 1 ≤ (b.id : Rat) ∧
                (b.id : Rat) ≤ min (perPage * pageNum)
                  (((maxId db).getD 0 : Nat) : Rat)))).map format))) := by
  have hmb : (match maxId db with | none => (0:Rat) | some n => (n:Rat)) =
      (((maxId db).getD 0 : Nat) : Rat) := by
    cases maxId db <;> simp
  constructor
  · intro hgt
    simp only [getAll, hmb]
    rw [if_neg (by push_neg; exact ⟨h1, h2⟩)]
    rw [if_pos (Or.inl hgt)]
  · intro hle
    simp only [getAll, hmb]
    rw [if_neg (by push_neg; exact ⟨h1, h2⟩)]
    rw [if_neg ?hcond]
    case hcond =>
      push_neg
      refine ⟨hle, ?_⟩
      by_contra hlt
      push_neg at hlt
      have hq : ((ratCeil ((((maxId db).getD 0 : Nat) : Rat) / perPage) : Int) : Rat) < 1 := by
        exact_mod_cast hlt
      exact absurd (lt_of_le_of_lt (le_trans h1 hle) hq) (lt_irrefl _)
    have hmin : (if perPage * pageNum > (((maxId db).getD 0 : Nat) : Rat)
        then (((maxId db).getD 0 : Nat) : Rat) else perPage * pageNum) =
        min (perPage * pageNum) (((maxId db).getD 0 : Nat) : Rat) := by
      rw [min_def]
      by_cases h : perPage * pageNum ≤ (((maxId db).getD 0 : Nat) : Rat)
      · rw [if_pos h, if_neg (not_lt.mpr h)]
      · rw [if_neg h, if_pos (lt_of_not_le h)]
    rw [hmin]

/-- C3 witness: the theorem applied to the one-row table `[bookCarol]`
(`max_id = 4`), `pagenum = 1`, `perpage = 10`. -/
theorem getAll_paging_contract_witness :
    ((((ratCeil ((((maxId [bookCarol]).getD 0 : Nat) : Rat) / 10) : Int) : Rat) < 1 →
        getAll 1 10 [bookCarol] =
          Resp.msg 400 "Page outside of range"
            ("Page must be greater than 0 and less than " ++
              toString (ratCeil ((((maxId [bookCarol]).getD 0 : Nat) : Rat) / 10)) ++ ".")) ∧
     ((1 : Rat) ≤ ((ratCeil ((((maxId [bookCarol]).getD 0 : Nat) : Rat) / 10) : Int) : Rat) →
        getAll 1 10 [bookCarol] =
          Resp.entries 200
            (([bookCarol].filter (fun b =>
              decide ((10 : Rat) * ((1 : Rat) - 1) + 1 ≤ (b.id : Rat) ∧
                (b.id : Rat) ≤ min ((10 : Rat) * (1 : Rat))
                  (((maxId [bookCarol]).getD 0 : Nat) : Rat)))).map format))) :=
  getAll_paging_contract [bookCarol] 1 10 (le_refl 1) (by norm_num)

/-- C4 counterexample: the delete-by-author request with author value `_`
on the table `[bookX]` (authors `X`).  `X` does not contain `_` as a
substring, so the claim predicts a 404 with the table unchanged; the code
passes `_` unescaped into `LIKE '%_%'`, which matches `X`, deletes the row
and returns it with 200. -/
theorem deleteByAuthor_substring_claim_cex :
    deleteByAuthor "_" [bookX] = (Resp.entries 200 [format bookX], []) ∧
    ¬ ("_".data <:+: bookX.authors.data) := by decide

/-- C4 (amended): for every delete-by-author request with a non-empty
author string containing no SQL `LIKE` wildcard (`%`, `_`): every row whose
`authors` field contains the string as a substring is removed and returned
(formatted) with 200, and no other row is removed; when no row's `authors`
contains the string, the response is 404 and the table is unchanged. -/
theorem deleteByAuthor_contract (db : List Book) (author : String)
    (ha : author ≠ "") (hw : wildcardFree author = true) :
    ((∃ b ∈ db, author.data <:+: b.authors.data) →
       deleteByAuthor author db =
         (Resp.entries 200
           ((db.filter (fun b => decide (author.data <:+: b.authors.data))).map format),
          db.filter (fun b => !(decide (author.data <:+: b.authors.data))))) ∧
    ((∀ b ∈ db, ¬ author.data <:+: b.authors.data) →
       deleteByAuthor author db = (Resp.msg 404 "No books found"
         "No books with this author were found to delete.", db)) := by
  have hpred : ∀ b : Book, sqlLikeContains author b.authors =
      decide (author.data <:+: b.authors.data) := by
    intro b
    by_cases hb : author.data <:+: b.authors.data
    · simp [hb, (sqlLikeContains_iff author b.authors hw).mpr hb]
    · have hne : sqlLikeContains author b.authors ≠ true := fun hcon =>
        hb ((sqlLikeContains_iff author b.authors hw).mp hcon)
      simp [hb, Bool.eq_false_iff.mpr hne]
  constructor
  · rintro ⟨b, hb, hin⟩
    have hlen : 0 < (db.filter (fun b => sqlLikeContains author b.authors)).length := by
      rw [List.length_pos]
      intro hnil
      rw [List.filter_eq_nil_iff] at hnil
      exact hnil b hb (by rw [hpred b]; simpa using hin)
    have hfa : db.filter (fun b => sqlLikeContains author b.authors) =
        db.filter (fun b => decide (author.data <:+: b.authors.data)) :=
      List.filter_congr (fun b _ => hpred b)
    have hfb : db.filter (fun b => !(sqlLikeContains author b.authors)) =
        db.filter (fun b => !(decide (author.data <:+: b.authors.data))) :=
      List.filter_congr (fun b _ => by rw [hpred b])
    simp [deleteByAuthor, isStringProvided, ha, hlen, hfa, hfb]
    exact ⟨b, hb, hin⟩
  · intro hnone
    have hfil : db.filter (fun b => sqlLikeContains author b.authors) = [] :=
      List.filter_eq_nil_iff.mpr (fun b hb => by
        rw [hpred b]
        simpa using hnone b hb)
    simp [deleteByAuthor, isStringProvided, ha, hfil]

/-- C4 witness: the amended theorem applied to the table `[bookCarol]` and
the wildcard-free author substring `Carol`. -/
theorem deleteByAuthor_contract_witness :
    ((∃ b ∈ [bookCarol], "Carol".data <:+: b.authors.data) →
       deleteByAuthor "Carol" [bookCarol] =
         (Resp.entries 200
           (([bookCarol].filter
             (fun b => decide ("Carol".data <:+: b.authors.data))).map format),
          [bookCarol].filter
            (fun b => !(decide ("Carol".data <:+: b.authors.data))))) ∧
    ((∀ b ∈ [bookCarol], ¬ "Carol".data <:+: b.authors.data) →
       deleteByAuthor "Carol" [bookCarol] = (Resp.msg 404 "No books found"
         "No books with this author were found to delete.", [bookCarol])) :=
  deleteByAuthor_contract [bookCarol] "Carol" (by decide) (by decide)

/-- C5: For every `addBook` request with a previously-unused `isbn13` and
valid required fields that omits all optional fields, the response is 201
and the returned DTO carries the submitted required values together with
the defaults `original_title = ""`, `average = 0`, `count = 0`, all five
star buckets 0, and empty image URL strings (and the row is appended to
the table). -/
theorem addBook_fresh_isbn_defaults (db : List Book) (body : AddBookBody)
    (hfresh : ∀ b ∈ db, b.isbn13 ≠ body.isbn13)
    (_hreq : 0 ≤ body.isbn13 ∧ body.authors ≠ "" ∧ body.title ≠ "")
    (h1 : body.original_title = none) (h2 : body.average = none)
    (h3 : body.count = none) (h4 : body.rating_1 = none)
    (h5 : body.rating_2 = none) (h6 : body.rating_3 = none)
    (h7 : body.rating_4 = none) (h8 : body.rating_5 = none)
    (h9 : body.large = none) (h10 : body.small = none) :
    addBook body db =
      (Resp.entry 201
        { isbn13 := body.isbn13, authors := body.authors,
          publication := body.publication, original_title := "",
          title := body.title,
          ratings := { average := 0, count := 0, rating_1 := 0, rating_2 := 0,
                       rating_3 := 0, rating_4 := 0, rating_5 := 0 },
          icons := { large := "", small := "" } },
       db ++ [addBookRow body db]) := by
  have hne : ¬ ∃ x ∈ db, x.isbn13 = body.isbn13 := by
    rintro ⟨b, hb, hEq⟩
    exact hfresh b hb hEq
  simp [addBook, pgInsertBook, addBookRespond, format, addBookRow,
    h1, h2, h3, h4, h5, h6, h7, h8, h9, h10, hne]

/-- C5 witness: the theorem applied to the table `[bookCarol]` and the
fresh-ISBN body `bodyDana`. -/
theorem addBook_fresh_isbn_defaults_witness :
    addBook bodyDana [bookCarol] =
      (Resp.entry 201
        { isbn13 := (9781111111111 : Int), authors := "Dana",
          publication := 1999, original_title := "", title := "Zeta",
          ratings := { average := 0, count := 0, rating_1 := 0, rating_2 := 0,
                       rating_3 := 0, rating_4 := 0, rating_5 := 0 },
          icons := { large := "", small := "" } },
       [bookCarol] ++ [addBookRow bodyDana [bookCarol]]) :=
  addBook_fresh_isbn_defaults [bookCarol] bodyDana (by decide)
    ⟨by decide, by decide, by decide⟩ rfl rfl rfl rfl rfl rfl rfl rfl rfl rfl

/-- C6: For every `GET /book/isbn` request: a query value that is not a
13-digit number yields 400; a 13-digit value with no matching row yields
404; a 13-digit value with matching rows yields 200 with those rows. -/
theorem getByIsbn_contract (isbn : String) (db : List Book) :
    (¬(isbn.data.all Char.isDigit = true ∧ isbn.length = 13) →
       getByIsbn isbn db = Resp.msg 400 "Missing/Bad information"
         "Missing or bad information, see documentation.") ∧
    (isbn.data.all Char.isDigit = true → isbn.length = 13 →
      ((∀ b ∈ db, b.isbn13 ≠ digitsToInt isbn) →
         getByIsbn isbn db = Resp.msg 404 "No books with this ISBN"
           "No books found with this ISBN.") ∧
      ((∃ b ∈ db, b.isbn13 = digitsToInt isbn) →
         getByIsbn isbn db = Resp.entries 200
           ((db.filter (fun b => b.isbn13 == digitsToInt isbn)).map format))) := by
  constructor
  · intro hbad
    have hguard : (isNumberProvidedStr isbn && isbn.length == 13) = false := by
      by_cases hall : isbn.data.all Char.isDigit = true
      · have hlen : isbn.length ≠ 13 := fun h => hbad ⟨hall, h⟩
        simp [isNumberProvidedStr, hall, hlen]
      · simp [isNumberProvidedStr, Bool.eq_false_iff.mpr hall]
    simp [getByIsbn, hguard]
  · intro hall hlen
    have hne : isbn ≠ "" := by
      intro h
      rw [h] at hlen
      simp at hlen
    have hguard : (isNumberProvidedStr isbn && isbn.length == 13) = true := by
      simp [isNumberProvidedStr, hall, hlen, hne]
    constructor
    · intro hnone
      have hfil : db.filter (fun b => b.isbn13 == digitsToInt isbn) = [] := by
        rw [List.filter_eq_nil_iff]
        intro b hb
        simp [hnone b hb]
      simp [getByIsbn, hguard, hfil]
    · intro ⟨b, hb, hEq⟩
      have hfil : 0 < (db.filter (fun b => b.isbn13 == digitsToInt isbn)).length := by
        rw [List.length_pos]
        intro h
        rw [List.filter_eq_nil_iff] at h
        exact h b hb (by simp [hEq])
      simp [getByIsbn, hguard, hfil]

/-- C6 witness: the theorem applied to the table `[bookCarol]` and the
13-digit value of `bookCarol`'s ISBN: the 200 branch with its one matching
row. -/
theorem getByIsbn_contract_witness :
    getByIsbn "9780000000004" [bookCarol] =
      Resp.entries 200
        (([bookCarol].filter
          (fun b => b.isbn13 == digitsToInt "9780000000004")).map format) :=
  ((getByIsbn_contract "9780000000004" [bookCarol]).2 (by decide) (by decide)).2
    ⟨bookCarol, List.mem_singleton.mpr rfl, by decide⟩

/-- C7 counterexample: a `changeValues` request whose `author`/`title`
values (`Alice`, `Foo`) are proper substrings of `bookAlice`'s fields
(`Alice Smith`, `Foo Bar`) and which provides `new_title`.  The claim
predicts 201 with the updated row; the handler pushes the bare values into
`WHERE authors LIKE $n AND title LIKE $m` (no `%` wrapping), so nothing
matches and the code answers 404 with the table unchanged. -/
theorem changeValues_substring_claim_cex :
    changeValues bodyCVSub [bookAlice] =
      (Resp.msg 404 "No book found with that combination of author and title"
        "No book found with given author and title.", [bookAlice]) ∧
    bodyCVSub.author.data <:+: bookAlice.authors.data ∧
    bodyCVSub.title.data <:+: bookAlice.title.data := by decide

/-- C7 (amended): For every `changeValues` request passing body validation:
when none of the `new_*` fields is provided the response is 400 ("No valid
update values were passed.") and no row is modified; when at least one is
provided and some row matches `author` and `title` as bare SQL `LIKE`
patterns — which for wildcard-free values is field equality, not substring
containment — those rows (and only those) are updated and returned with
201, provided the update does not violate the `isbn13` uniqueness
constraint; when no row matches, the response is 404 and no row is
modified. -/
theorem changeValues_contract (db : List Book) (body : ChangeValuesBody)
    (hg : changeValuesGuard body = true)
    (hnodup : ((db.map (fun b =>
        if changeValuesMatched body b then applyChanges body b else b)).map
        Book.isbn13).Nodup) :
    (providedCount body = 0 →
       changeValues body db = (Resp.msg 400 "No valid update values provided"
         "No valid update values were passed.", db)) ∧
    (providedCount body ≠ 0 →
      ((∃ b ∈ db, changeValuesMatched body b = true) →
        changeValues body db =
          (Resp.entries 201
            (((db.filter (changeValuesMatched body)).map (applyChanges body)).map format),
           db.map (fun b =>
             if changeValuesMatched body b then applyChanges body b else b))) ∧
      ((∀ b ∈ db, changeValuesMatched body b = false) →
        changeValues body db =
          (Resp.msg 404 "No book found with that combination of author and title"
            "No book found with given author and title.", db))) ∧
    (wildcardFree body.author = true → wildcardFree body.title = true →
      ∀ b : Book, changeValuesMatched body b = true ↔
        (b.authors = body.author ∧ b.title = body.title)) := by
  rw [List.map_map] at hnodup
  refine ⟨?_, ?_, ?_⟩
  · intro h0
    simp [changeValues, hg, h0]
  · intro hn0
    have hbeq : (providedCount body == 0) = false := by simpa using hn0
    constructor
    · rintro ⟨b, hb, hm⟩
      have hlen : 0 < (db.filter (changeValuesMatched body)).length := by
        rw [List.length_pos]
        intro hnil
        rw [List.filter_eq_nil_iff] at hnil
        exact hnil b hb (by simp [hm])
      simp [changeValues, hg, hbeq, pgUpdateBooks, hnodup, hlen]
    · intro hnone
      have hfil : db.filter (changeValuesMatched body) = [] :=
        List.filter_eq_nil_iff.mpr (fun b hb => by simp [hnone b hb])
      simp [changeValues, hg, hbeq, pgUpdateBooks, hnodup, hfil]
  · intro hwa hwt b
    rw [changeValuesMatched, Bool.and_eq_true,
      sqlLikeExact_iff body.author b.authors hwa,
      sqlLikeExact_iff body.title b.title hwt]

/-- C7 witness: the amended theorem applied to the table `[bookCarol]` and
the body `bodyCV`, whose `author`/`title` equal `bookCarol`'s fields and
which provides `new_year`. -/
theorem changeValues_contract_witness :
    (providedCount bodyCV = 0 →
       changeValues bodyCV [bookCarol] =
         (Resp.msg 400 "No valid update values provided"
           "No valid update values were passed.", [bookCarol])) ∧
    (providedCount bodyCV ≠ 0 →
      ((∃ b ∈ [bookCarol], changeValuesMatched bodyCV b = true) →
        changeValues bodyCV [bookCarol] =
          (Resp.entries 201
            ((([bookCarol].filter (changeValuesMatched bodyCV)).map
              (applyChanges bodyCV)).map format),
           [bookCarol].map (fun b =>
             if changeValuesMatched bodyCV b then applyChanges bodyCV b else b))) ∧
      ((∀ b ∈ [bookCarol], changeValuesMatched bodyCV b = false) →
        changeValues bodyCV [bookCarol] =
          (Resp.msg 404 "No book found with that combination of author and title"
            "No book found with given author and title.", [bookCarol]))) ∧
    (wildcardFree bodyCV.author = true → wildcardFree bodyCV.title = true →
      ∀ b : Book, changeValuesMatched bodyCV b = true ↔
        (b.authors = bodyCV.author ∧ b.title = bodyCV.title)) :=
  changeValues_contract [bookCarol] bodyCV (by decide) (by decide)

/-- C8: the substring-matching endpoints pass the author value unescaped
into the `LIKE` pattern: a delete-by-author request with author value `%`
matches and deletes every row of a non-empty table — including rows whose
`authors` field does not contain `%` as a literal substring — and returns
them all with 200. -/
theorem deleteByAuthor_percent_deletes_all (db : List Book) (h : db ≠ []) :
    deleteByAuthor "%" db = (Resp.entries 200 (db.map format), []) ∧
    ∀ b ∈ db, sqlLikeContains "%" b.authors = true := by
  have hall : ∀ b ∈ db, sqlLikeContains "%" b.authors = true :=
    fun b _ => sqlLikeContains_percent_all b.authors
  refine ⟨?_, hall⟩
  have hfil : db.filter (fun b => sqlLikeContains "%" b.authors) = db :=
    List.filter_eq_self.mpr (fun b hb => by simp [hall b hb])
  have hfil2 : db.filter (fun b => !(sqlLikeContains "%" b.authors)) = [] :=
    List.filter_eq_nil_iff.mpr (fun b hb => by simp [hall b hb])
  simp [deleteByAuthor, isStringProvided, hfil, hfil2, List.length_pos, h]

/-- C8 witness: the theorem applied to the one-row table `[bookBob]`, whose
`authors` value `Bob Jones` does not contain `%`. -/
theorem deleteByAuthor_percent_deletes_all_witness :
    deleteByAuthor "%" [bookBob] =
      (Resp.entries 200 ([bookBob].map format), []) ∧
    ∀ b ∈ [bookBob], sqlLikeContains "%" b.authors = true :=
  deleteByAuthor_percent_deletes_all [bookBob] (by simp)

/-- C9: a request that passes all of `addRating`'s validation guards with
the numeric, non-integer rating 2.5 reaches the final handler, which builds
the column name `rating_2.5_star`; that names no column, so the `UPDATE`
fails and the endpoint answers the generic 500 (not a 400 validation error)
with the table unchanged — the guards do not make the final handler's error
branch unreachable. -/
theorem addRating_noninteger_rating_500 :
    addRating "Alice" "Foo" (5/2 : Rat) [bookAlice] =
      (Resp.msg 500 "" serverErrorMsg, [bookAlice]) ∧
    (1 ≤ (5/2 : Rat) ∧ (5/2 : Rat) ≤ 5) ∧
    ratingColumnName (5/2 : Rat) = "rating_2.5_star" := by
  have hguard : (decide (1 ≤ (5/2 : Rat)) && decide ((5/2 : Rat) ≤ 5)) = true := by
    with_unfolding_all decide
  have hcol : starIndex (ratingColumnName (5/2 : Rat)) = none := by
    with_unfolding_all decide
  have hname : ratingColumnName (5/2 : Rat) = "rating_2.5_star" := by
    with_unfolding_all decide
  have hany1 : ([bookAlice].any (fun b => sqlLikeContains "Foo" b.title)) = true := by
    decide
  have hany2 : ([bookAlice].any (fun b => sqlLikeContains "Alice" b.authors)) = true := by
    decide
  have hany3 : ([bookAlice].any (addRatingMatched "Alice" "Foo")) = true := by
    decide
  refine ⟨?_, by with_unfolding_all decide, hname⟩
  rw [addRating, hguard]
  simp only [isStringProvided, hany1, hany2, hany3, hcol, Bool.not_true,
    Bool.false_eq_true, if_false, String.reduceBNe, Bool.and_self]

/-- C10: For every `GET /book/getAll` request with numeric `pagenum` and
`perpage` at least 1 on an empty table, `MAX(id)` is `NULL`, `maxPages`
computes to 0, and the response is the 400 "Page outside of range" error;
moreover no request on an empty table ever produces a 200 response. -/
theorem getAll_empty_table_400 (pageNum perPage : Rat)
    (h1 : 1 ≤ pageNum) (h2 : 1 ≤ perPage) :
    getAll pageNum perPage [] =
      Resp.msg 400 "Page outside of range"
        "Page must be greater than 0 and less than 0." ∧
    ∀ pn pp : Rat, (getAll pn pp []).status ≠ 200 := by
  constructor
  · simp only [getAll, maxId, List.map_nil, List.max?_nil]
    rw [zero_div, ratCeil_zero]
    rw [if_neg (by push_neg; exact ⟨h1, h2⟩)]
    rw [if_pos (Or.inr (by norm_num))]
    rfl
  · intro pn pp
    simp only [getAll, maxId, List.map_nil, List.max?_nil]
    rw [zero_div, ratCeil_zero]
    by_cases h : pn < 1 ∨ pp < 1
    · rw [if_pos h]
      simp [Resp.status]
    · rw [if_neg h, if_pos (Or.inr (by norm_num))]
      simp [Resp.status]

/-- C10 witness: the theorem applied at `pagenum = 2`, `perpage = 3`. -/
theorem getAll_empty_table_400_witness :
    getAll 2 3 [] =
      Resp.msg 400 "Page outside of range"
        "Page must be greater than 0 and less than 0." ∧
    ∀ pn pp : Rat, (getAll pn pp []).status ≠ 200 :=
  getAll_empty_table_400 2 3 (by norm_num) (by norm_num)

end BooksApi
